import Mathlib

/-!
Verification of the NetBox MCP server (netbox_mcp_server.py).

The development shallowly embeds the tool-to-API mapping layer: JSON values,
Python dictionary semantics, the REST client response handling, the query
construction of each tool handler, the script catalog helpers, and the
script-execution job-id extraction. Definitions are transliterated from the
Python source; theorems settle the specification claims about them.
-/

set_option maxHeartbeats 1000000

/-- A JSON value, as produced by decoding an HTTP response body. -/
inductive JValue where
  | null
  | bool (b : Bool)
  | num (n : Int)
  | str (s : String)
  | arr (xs : List JValue)
  | obj (fields : List (String × JValue))
deriving Repr, Inhabited

/-- A Python dictionary with string keys and JSON values, in insertion order. -/
abbrev Dict := List (String × JValue)

/-- Key lookup in a dictionary: the value of the first entry with the key. -/
def pyGetKey (fields : Dict) (k : String) : Option JValue :=
  (fields.find? (fun p => p.1 == k)).map (fun p => p.2)

/-- Key membership test, as in the Python expression `k in d` for a dict. -/
def memKey (d : Dict) (k : String) : Bool :=
  d.any (fun p => p.1 == k)

/-- Python dictionary item assignment `d[k] = v`: replace the value in place
if the key exists, otherwise append the new entry. -/
def dictSet (d : Dict) (k : String) (v : JValue) : Dict :=
  if memKey d k then d.map (fun p => if p.1 == k then (k, v) else p)
  else d ++ [(k, v)]

/-- Python `d.update(u)`: assign every entry of `u` into `d`, left to right. -/
def dictUpdate (d u : Dict) : Dict :=
  u.foldl (fun acc p => dictSet acc p.1 p.2) d

/-- The value the last entry of `d` with key `k` holds, if any.  This is the
value a sequence of Python dictionary assignments leaves behind. -/
def lastLookup (d : Dict) (k : String) : Option JValue :=
  pyGetKey d.reverse k

/-- Python truthiness of a decoded JSON value. -/
def pyTruthy : JValue → Bool
  | .null => false
  | .bool b => b
  | .num n => n != 0
  | .str s => s != ""
  | .arr xs => !xs.isEmpty
  | .obj fs => !fs.isEmpty

/-- Python `a or b` on values: `a` when truthy, else `b`. -/
def pyOr (a b : JValue) : JValue :=
  if pyTruthy a then a else b

/-- Truthiness of a Python Optional[int]: `None` and `0` are falsy. -/
def truthyOptInt : Option Int → Bool
  | none => false
  | some n => n != 0

/-- Truthiness of a Python Optional[str]: `None` and `""` are falsy. -/
def truthyOptStr : Option String → Bool
  | none => false
  | some s => s != ""

/-- Truthiness of a Python Optional[dict]: `None` and `{}` are falsy. -/
def truthyOptDict : Option Dict → Bool
  | none => false
  | some d => !d.isEmpty

/-- Whether `pat` starts `s`, on character lists. -/
def listStartsWith : List Char → List Char → Bool
  | [], _ => true
  | _ :: _, [] => false
  | a :: as, b :: bs => a == b && listStartsWith as bs

/-- Whether `pat` occurs as a contiguous run inside `s`, on character lists. -/
def listIsSubstr (pat : List Char) : List Char → Bool
  | [] => listStartsWith pat []
  | b :: bs => listStartsWith pat (b :: bs) || listIsSubstr pat bs

/-- The Python substring test `pat in s` on strings. -/
def strIn (pat s : String) : Bool :=
  listIsSubstr pat.data s.data

/-- Python `str.lower()`, character by character (basic latin letters, which
covers every string the program compares). -/
def pyLower (s : String) : String :=
  ⟨s.data.map Char.toLower⟩

/-- Worker of `pySplit`: walk the characters, collecting the current word in
reverse and emitting it at every whitespace boundary. -/
def wordsAux : List Char → List Char → List String
  | [], acc => if acc.isEmpty then [] else [⟨acc.reverse⟩]
  | c :: cs, acc =>
    if c.isWhitespace then
      if acc.isEmpty then wordsAux cs [] else ⟨acc.reverse⟩ :: wordsAux cs []
    else wordsAux cs (c :: acc)

/-- Python `str.split()`: split on whitespace runs, discarding empty pieces. -/
def pySplit (s : String) : List String :=
  wordsAux s.data []

/-- The slash character predicate the strip helpers use. -/
def slashChar (c : Char) : Bool := c == '/'

/-- Drop every trailing slash of a character list. -/
def rstripSlashL (l : List Char) : List Char :=
  (l.reverse.dropWhile slashChar).reverse

/-- Python rstrip with a slash argument: drop every trailing slash. -/
def rstripSlash (s : String) : String :=
  ⟨rstripSlashL s.data⟩

/-- Python strip with a slash argument: drop every leading and trailing
slash. -/
def stripSlash (s : String) : String :=
  ⟨rstripSlashL (s.data.dropWhile slashChar)⟩

/-- `requests.Response.raise_for_status`: raise on any status in 400..599. -/
def raise_for_status (status : Nat) : Except String Unit :=
  if 400 ≤ status ∧ status < 600 then .error ("HTTP error " ++ toString status)
  else .ok ()

namespace NetBoxRestClient

/-- `self.api_url`: the base URL with trailing slashes removed, plus `/api`. -/
def api_url (base_url : String) : String :=
  rstripSlash base_url ++ "/api"

/-- `NetBoxRestClient._build_url`: strip slashes off the endpoint, append the
optional id, and enforce a trailing slash. -/
def build_url (base_url endpoint : String) (id : Option Int) : String :=
  let e := stripSlash endpoint
  match id with
  | some i => api_url base_url ++ "/" ++ e ++ "/" ++ toString i ++ "/"
  | none => api_url base_url ++ "/" ++ e ++ "/"

/-- The URL the bulk operations use: the collection URL with `bulk/` behind. -/
def bulk_url (base_url endpoint : String) : String :=
  build_url base_url endpoint none ++ "bulk/"

/-- The Python membership test of the key `results` in a decoded JSON
value:
key membership on a dict, element membership on a list, substring on a
string; anything else raises `TypeError`. -/
def pyInResults : JValue → Except String Bool
  | .obj fields => .ok (memKey fields "results")
  | .arr xs => .ok (xs.any (fun x => match x with | .str s => s == "results" | _ => false))
  | .str s => .ok (strIn "results" s)
  | _ => .error "TypeError: argument is not iterable"

/-- The Python indexing of `data` at the key `results`: dict lookup,
`KeyError` when the key is absent, `TypeError` on any non-dict value. -/
def pyIndexResults : JValue → Except String JValue
  | .obj fields =>
    match pyGetKey fields "results" with
    | some v => .ok v
    | none => .error "KeyError: results"
  | _ => .error "TypeError: indices must be integers"

/-- `NetBoxRestClient.get`, from the response status and decoded body:
raise for an error status, then unwrap the `results` page wrapper when no
id was requested. -/
def get (status : Nat) (id : Option Int) (payload : JValue) :
    Except String JValue :=
  match raise_for_status status with
  | .error e => .error e
  | .ok _ =>
    match id with
    | some _ => .ok payload
    | none =>
      match pyInResults payload with
      | .error e => .error e
      | .ok true => pyIndexResults payload
      | .ok false => .ok payload

/-- `NetBoxRestClient.delete`, from the response status: raise for an error
status, then report whether the status was 204 No Content. -/
def delete (status : Nat) : Except String Bool :=
  match raise_for_status status with
  | .error e => .error e
  | .ok _ => .ok (status == 204)

/-- `NetBoxRestClient.bulk_delete`, from the response status: the same
status handling as `delete`, against the bulk URL. -/
def bulk_delete (status : Nat) : Except String Bool :=
  match raise_for_status status with
  | .error e => .error e
  | .ok _ => .ok (status == 204)

end NetBoxRestClient

/-- The client interface the tool handlers call (the CRUD surface of
`NetBoxClientBase`).  Each method yields either a decoded JSON value or the
message of the exception the transport raised. -/
structure Client where
  get : String → Option Int → Option Dict → Except String JValue
  create : String → JValue → Except String JValue
  update : String → Int → JValue → Except String JValue
  delete : String → Int → Except String Bool

/-- A client whose every call fails with the message `e`, standing for a
transport that raises on each request. -/
def errClient (e : String) : Client :=
  ⟨fun _ _ _ => .error e, fun _ _ => .error e, fun _ _ _ => .error e,
   fun _ _ => .error e⟩

/-- A client whose every call succeeds with the fixed value `v`. -/
def constClient (v : JValue) : Client :=
  ⟨fun _ _ _ => .ok v, fun _ _ => .ok v, fun _ _ _ => .ok v,
   fun _ _ => .ok true⟩

/-- The success envelope `{"success": True, "data": ...}`. -/
def okData (d : JValue) : JValue :=
  .obj [("success", .bool true), ("data", d)]

/-- The error envelope `{"success": False, "error": str(e)}` every handler
builds in its except branch. -/
def errEnv (e : String) : JValue :=
  .obj [("success", .bool false), ("error", .str e)]

/-- The shared `try: return {"success": True, "data": ...} except` shape of
the plain CRUD handlers. -/
def mkGetResult : Except String JValue → JValue
  | .ok d => okData d
  | .error e => errEnv e

/-- Key lookup on an envelope value: lookup when it is an object. -/
def envLookup (v : JValue) (k : String) : Option JValue :=
  match v with
  | .obj fields => pyGetKey fields k
  | _ => none

/-- Whether a value is an envelope: an object whose `success` key holds a
boolean. -/
def envelopeOk (v : JValue) : Bool :=
  match envLookup v "success" with
  | some (.bool _) => true
  | _ => false

/-- The query dictionary of `get_sites`: `{"limit": limit}` updated with the
raw `params` mapping when that is truthy. -/
def get_sites_query (limit : Int) (params : Option Dict) : Dict :=
  let query_params : Dict := [("limit", .num limit)]
  match params with
  | some p => if p.isEmpty then query_params else dictUpdate query_params p
  | none => query_params

/-- Tool `get_sites`. -/
def get_sites (c : Client) (limit : Int := 50) (params : Option Dict := none) :
    JValue :=
  mkGetResult (c.get "dcim/sites" none (some (get_sites_query limit params)))

/-- Tool `get_site_by_id`. -/
def get_site_by_id (c : Client) (site_id : Int) : JValue :=
  mkGetResult (c.get "dcim/sites" (some site_id) none)

/-- Tool `create_site`. -/
def create_site (c : Client) (name slug : String) (status : String := "active")
    (description : String := "") : JValue :=
  let site_data : JValue := .obj [("name", .str name), ("slug", .str slug),
    ("status", .str status), ("description", .str description)]
  mkGetResult (c.create "dcim/sites" site_data)

/-- The query dictionary of `get_devices` before the raw `params` overlay:
`{"limit": limit}`, with `site_id` added only when truthy. -/
def get_devices_named (limit : Int) (site_id : Option Int) : Dict :=
  let query_params : Dict := [("limit", .num limit)]
  match site_id with
  | some i => if i != 0 then dictSet query_params "site_id" (.num i)
              else query_params
  | none => query_params

/-- The full query dictionary of `get_devices`. -/
def get_devices_query (limit : Int) (site_id : Option Int)
    (params : Option Dict) : Dict :=
  let query_params := get_devices_named limit site_id
  match params with
  | some p => if p.isEmpty then query_params else dictUpdate query_params p
  | none => query_params

/-- Tool `get_devices`. -/
def get_devices (c : Client) (limit : Int := 50) (site_id : Option Int := none)
    (params : Option Dict := none) : JValue :=
  mkGetResult
    (c.get "dcim/devices" none (some (get_devices_query limit site_id params)))

/-- Tool `get_device_by_id`. -/
def get_device_by_id (c : Client) (device_id : Int) : JValue :=
  mkGetResult (c.get "dcim/devices" (some device_id) none)

/-- Tool `create_device`. -/
def create_device (c : Client) (name : String) (device_type_id site_id : Int)
    (status : String := "active") : JValue :=
  let device_data : JValue := .obj [("name", .str name),
    ("device_type", .num device_type_id), ("site", .num site_id),
    ("status", .str status)]
  mkGetResult (c.create "dcim/devices" device_data)

/-- The query dictionary of `get_device_types`: `{"limit": limit}`, with
`manufacturer_id` added only when truthy. -/
def get_device_types_query (limit : Int) (manufacturer_id : Option Int) :
    Dict :=
  let query_params : Dict := [("limit", .num limit)]
  match manufacturer_id with
  | some i => if i != 0 then dictSet query_params "manufacturer_id" (.num i)
              else query_params
  | none => query_params

/-- Tool `get_device_types`. -/
def get_device_types (c : Client) (limit : Int := 50)
    (manufacturer_id : Option Int := none) : JValue :=
  mkGetResult (c.get "dcim/device-types" none
    (some (get_device_types_query limit manufacturer_id)))

/-- The query dictionary of `get_ip_addresses` before the `params` overlay:
`{"limit": limit}`, with `vrf_id` added only when truthy. -/
def get_ip_addresses_named (limit : Int) (vrf_id : Option Int) : Dict :=
  let query_params : Dict := [("limit", .num limit)]
  match vrf_id with
  | some i => if i != 0 then dictSet query_params "vrf_id" (.num i)
              else query_params
  | none => query_params

/-- The full query dictionary of `get_ip_addresses`. -/
def get_ip_addresses_query (limit : Int) (vrf_id : Option Int)
    (params : Option Dict) : Dict :=
  let query_params := get_ip_addresses_named limit vrf_id
  match params with
  | some p => if p.isEmpty then query_params else dictUpdate query_params p
  | none => query_params

/-- Tool `get_ip_addresses`. -/
def get_ip_addresses (c : Client) (limit : Int := 50)
    (vrf_id : Option Int := none) (params : Option Dict := none) : JValue :=
  mkGetResult (c.get "ipam/ip-addresses" none
    (some (get_ip_addresses_query limit vrf_id params)))

/-- Tool `create_ip_address`. -/
def create_ip_address (c : Client) (address : String)
    (status : String := "active") (description : String := "") : JValue :=
  let ip_data : JValue := .obj [("address", .str address),
    ("status", .str status), ("description", .str description)]
  mkGetResult (c.create "ipam/ip-addresses" ip_data)

/-- The query dictionary of `get_prefixes` before the `params` overlay. -/
def get_prefixes_named (limit : Int) (vrf_id : Option Int) : Dict :=
  let query_params : Dict := [("limit", .num limit)]
  match vrf_id with
  | some i => if i != 0 then dictSet query_params "vrf_id" (.num i)
              else query_params
  | none => query_params

/-- The full query dictionary of `get_prefixes`. -/
def get_prefixes_query (limit : Int) (vrf_id : Option Int)
    (params : Option Dict) : Dict :=
  let query_params := get_prefixes_named limit vrf_id
  match params with
  | some p => if p.isEmpty then query_params else dictUpdate query_params p
  | none => query_params

/-- Tool `get_prefixes`. -/
def get_prefixes (c : Client) (limit : Int := 50)
    (vrf_id : Option Int := none) (params : Option Dict := none) : JValue :=
  mkGetResult (c.get "ipam/prefixes" none
    (some (get_prefixes_query limit vrf_id params)))

/-- The query dictionary of `get_vlans`: `{"limit": limit}`, with `site_id`
added only when truthy; this tool takes no raw `params` mapping. -/
def get_vlans_query (limit : Int) (site_id : Option Int) : Dict :=
  let query_params : Dict := [("limit", .num limit)]
  match site_id with
  | some i => if i != 0 then dictSet query_params "site_id" (.num i)
              else query_params
  | none => query_params

/-- Tool `get_vlans`. -/
def get_vlans (c : Client) (limit : Int := 50)
    (site_id : Option Int := none) : JValue :=
  mkGetResult (c.get "ipam/vlans" none (some (get_vlans_query limit site_id)))

/-- The query dictionary of `search_objects`: `{"q": query, "limit": limit}`. -/
def search_objects_query (query : String) (limit : Int) : Dict :=
  [("q", .str query), ("limit", .num limit)]

/-- Tool `search_objects`. -/
def search_objects (c : Client) (endpoint query : String)
    (limit : Int := 25) : JValue :=
  mkGetResult (c.get endpoint none (some (search_objects_query query limit)))

/-- Tool `update_object`. -/
def update_object (c : Client) (endpoint : String) (object_id : Int)
    (data : Dict) : JValue :=
  mkGetResult (c.update endpoint object_id (.obj data))

/-- Tool `delete_object`: forwards the boolean the client returns as the
`success` value of the envelope, with a message instead of data. -/
def delete_object (c : Client) (endpoint : String) (object_id : Int) :
    JValue :=
  match c.delete endpoint object_id with
  | .ok success =>
    .obj [("success", .bool success),
      ("message", .str (if success then "Object " ++ toString object_id ++ " deleted"
                        else "Deletion failed"))]
  | .error e => errEnv e

/-- Python iteration over a decoded JSON value: a list yields its elements,
a dict its keys, a string its one-character substrings; anything else
raises `TypeError`. -/
def pyIter : JValue → Except String (List JValue)
  | .arr xs => .ok xs
  | .obj fields => .ok (fields.map (fun p => .str p.1))
  | .str s => .ok (s.data.map (fun ch => .str (String.singleton ch)))
  | _ => .error "TypeError: object is not iterable"

/-- The `scripts_list` / `matches` selection the script and search handlers
share: the response itself when it is a list, its `results` value when it is
a dict holding that key, else the empty list. -/
def scripts_list_value : JValue → JValue
  | .arr xs => .arr xs
  | .obj fields =>
    match pyGetKey fields "results" with
    | some v => v
    | none => .arr []
  | _ => .arr []

/-- The per-script normalization of `get_custom_scripts`: each field copied
with its default (`None` for plain `.get`, the placeholder text for the
description, `{}` for vars, `False` for `is_executable`).  A non-dict entry
raises `AttributeError` when `.get` is called on it. -/
def enhanceScript : JValue → Except String JValue
  | .obj script =>
    .ok (.obj [
      ("id", (pyGetKey script "id").getD .null),
      ("name", (pyGetKey script "name").getD .null),
      ("description",
        (pyGetKey script "description").getD (.str "No description available")),
      ("display", (pyGetKey script "display").getD .null),
      ("module", (pyGetKey script "module").getD .null),
      ("vars", (pyGetKey script "vars").getD (.obj [])),
      ("is_executable", (pyGetKey script "is_executable").getD (.bool false)),
      ("last_result", (pyGetKey script "result").getD .null)])
  | _ => .error "AttributeError: object has no attribute get"

/-- Tool `get_custom_scripts`: fetch `extras/scripts`, pick the list out of
the response, normalize every entry, and wrap the outcome. -/
def get_custom_scripts (c : Client) : JValue :=
  match c.get "extras/scripts" none none with
  | .error e => errEnv e
  | .ok response =>
    match pyIter (scripts_list_value response) >>=
        (fun xs => xs.mapM enhanceScript) with
    | .error e => errEnv e
    | .ok enhanced_scripts =>
      .obj [("success", .bool true),
        ("count", .num enhanced_scripts.length),
        ("data", .arr enhanced_scripts)]

/-- The simplification of one search match in `search_for_object_id`:
`id`, `name` (falling back to `display` when the name is falsy), `display`
and `url`.  A non-dict entry raises `AttributeError`. -/
def simplifyMatch : JValue → Except String JValue
  | .obj m =>
    .ok (.obj [
      ("id", (pyGetKey m "id").getD .null),
      ("name", pyOr ((pyGetKey m "name").getD .null)
                    ((pyGetKey m "display").getD .null)),
      ("display", (pyGetKey m "display").getD .null),
      ("url", (pyGetKey m "url").getD .null)])
  | _ => .error "AttributeError: object has no attribute get"

/-- Tool `search_for_object_id`: a free-text query with a result cap of 10,
with each match simplified to its identifying fields. -/
def search_for_object_id (c : Client) (endpoint search_name : String) :
    JValue :=
  match c.get endpoint none
      (some [("q", .str search_name), ("limit", .num 10)]) with
  | .error e => errEnv e
  | .ok results =>
    match pyIter (scripts_list_value results) >>=
        (fun xs => xs.mapM simplifyMatch) with
    | .error e => errEnv e
    | .ok simplified_matches =>
      .obj [("success", .bool true), ("endpoint", .str endpoint),
        ("search_name", .str search_name),
        ("count", .num simplified_matches.length),
        ("matches", .arr simplified_matches)]

/-- A script catalog entry as `find_custom_script` reads it: the searched
name, description and display fields, with an identifier standing for the
rest of the record. -/
structure Script where
  id : Int
  name : String
  description : String
  display : String
deriving DecidableEq, Repr

/-- The relevance score of `find_custom_script`: whole-query substring hits
on name (+10), description (+5) and display (+3), then +2 per query word
longer than two characters found in the name and +1 per such word found in
the description, all on lowercased text. -/
def relevance (query_lower : String) (s : Script) : Nat :=
  let name := pyLower s.name
  let description := pyLower s.description
  let display := pyLower s.display
  let base :=
    (if strIn query_lower name then 10 else 0) +
    (if strIn query_lower description then 5 else 0) +
    (if strIn query_lower display then 3 else 0)
  (pySplit query_lower).foldl (fun acc word =>
    if word.length > 2 then
      acc + (if strIn word name then 2 else 0) +
        (if strIn word description then 1 else 0)
    else acc) base

/-- Stable descending insertion by score: an element passes every stored
element with a strictly greater score and stops before the first one whose
score is not greater, so earlier elements keep their place on ties. -/
def insertPair (a : Script × Nat) : List (Script × Nat) → List (Script × Nat)
  | [] => [a]
  | b :: bs => if a.2 < b.2 then b :: insertPair a bs else a :: b :: bs

/-- Stable sort by descending score, as the stable Python `list.sort` with
`reverse=True` produces it. -/
def sortPairs : List (Script × Nat) → List (Script × Nat)
  | [] => []
  | a :: as => insertPair a (sortPairs as)

/-- Tool `find_custom_script` over a fetched catalog: score every script,
keep the positive scores, sort them by descending score keeping catalog
order on ties, and strip the score from the output. -/
def find_custom_script (query : String) (catalog : List Script) :
    List Script :=
  let query_lower := pyLower query
  let scored := (catalog.map (fun s => (s, relevance query_lower s))).filter
    (fun p => 0 < p.2)
  (sortPairs scored).map (fun p => p.1)

/-- A per-variable guidance record of `get_script_variables`.  The
`hintExample` field carries the Python `example` key, renamed because
`example` is a Lean keyword. -/
structure Guidance where
  type : String
  required : Bool
  help : String
  hintExample : String
deriving DecidableEq, Repr

/-- The canned hint for object-reference parameters naming a tenant. -/
def tenantGuidance (var_type : String) : Guidance :=
  ⟨var_type, true,
    "Use search_objects(\x27dcim/tenants\x27, \x27query\x27) to find tenant ID",
    "Search for tenant name and use the \x27id\x27 field"⟩

/-- The canned hint for object-reference parameters naming a region. -/
def regionGuidance (var_type : String) : Guidance :=
  ⟨var_type, true,
    "Use search_objects(\x27dcim/regions\x27, \x27query\x27) to find region ID",
    "Search for region name and use the \x27id\x27 field"⟩

/-- The canned hint for object-reference parameters naming a site. -/
def siteGuidance (var_type : String) : Guidance :=
  ⟨var_type, true,
    "Use get_sites() or search_objects(\x27dcim/sites\x27, \x27query\x27) to find site ID",
    "Search for site name and use the \x27id\x27 field"⟩

/-- The canned hint for object-reference parameters naming a device. -/
def deviceGuidance (var_type : String) : Guidance :=
  ⟨var_type, true,
    "Use get_devices() or search_objects(\x27dcim/devices\x27, \x27query\x27) to find device ID",
    "Search for device name and use the \x27id\x27 field"⟩

/-- The generic hint for object-reference parameters with no recognized
name. -/
def genericObjectGuidance (var_name var_type : String) : Guidance :=
  ⟨var_type, true,
    "Use search_objects() to find the " ++ var_name ++ " object ID",
    "Search by name and use the \x27id\x27 field from results"⟩

/-- The fixed template for string parameters. -/
def stringGuidance (var_name var_type : String) : Guidance :=
  ⟨var_type, true, "Provide as a string value",
    "\"example_" ++ var_name ++ "\""⟩

/-- The fixed template for integer parameters. -/
def integerGuidance (var_type : String) : Guidance :=
  ⟨var_type, true, "Provide as an integer value", "10"⟩

/-- The fixed template for boolean parameters. -/
def booleanGuidance (var_type : String) : Guidance :=
  ⟨var_type, true, "Provide as true or false", "true"⟩

/-- The generic placeholder for unrecognized type tags. -/
def unknownGuidance (var_type : String) : Guidance :=
  ⟨var_type, true, "Provide value for " ++ var_type,
    "See NetBox documentation"⟩

/-- The guidance dispatch of `get_script_variables`: object-reference
parameters are routed by case-insensitive name substrings (tenant, region,
site, device, in that order), scalar tags get fixed templates, and unknown
tags get the placeholder. -/
def guidanceFor (var_name var_type : String) : Guidance :=
  if var_type == "ObjectVar" then
    if strIn "tenant" (pyLower var_name) then tenantGuidance var_type
    else if strIn "region" (pyLower var_name) then regionGuidance var_type
    else if strIn "site" (pyLower var_name) then siteGuidance var_type
    else if strIn "device" (pyLower var_name) then deviceGuidance var_type
    else genericObjectGuidance var_name var_type
  else if var_type == "StringVar" then stringGuidance var_name var_type
  else if var_type == "IntegerVar" then integerGuidance var_type
  else if var_type == "BooleanVar" then booleanGuidance var_type
  else unknownGuidance var_type

/-- The variable-guidance loop of `get_script_variables`, over a script
mapping of a script descriptor from parameter name to type tag. -/
def get_script_variables (vars : List (String × String)) :
    List (String × Guidance) :=
  vars.map (fun p => (p.1, guidanceFor p.1 p.2))

/-- The execution payload of `execute_custom_script`:
`{"data": data or {}, "commit": commit}`. -/
def execPayload (data : Option Dict) (commit : Bool) : JValue :=
  .obj [("data", .obj (match data with
    | some d => if d.isEmpty then [] else d
    | none => [])),
    ("commit", .bool commit)]

/-- The job extraction of `execute_custom_script`, yielding the pair of
`job_info` and `job_id`: a present `job` key supplies the info and, when
its value is a dict, the id of that dict; without a `job` key a top-level `id`
supplies the job id. -/
def extract_job (result : JValue) : JValue × JValue :=
  match result with
  | .obj fields =>
    match pyGetKey fields "job" with
    | some job_info =>
      (job_info,
        match job_info with
        | .obj jf => (pyGetKey jf "id").getD .null
        | _ => .null)
    | none =>
      match pyGetKey fields "id" with
      | some v => (.null, v)
      | none => (.null, .null)
  | _ => (.null, .null)

/-- Tool `execute_custom_script`: submit the payload to the endpoint of the
script and report the extracted job handle. -/
def execute_custom_script (c : Client) (script_id : Int)
    (data : Option Dict := none) (commit : Bool := true) : JValue :=
  let payload := execPayload data commit
  match c.create ("extras/scripts/" ++ toString script_id) payload with
  | .ok result =>
    let jb := extract_job result
    .obj [("success", .bool true),
      ("message", .str "Script execution started successfully"),
      ("script_id", .num script_id),
      ("job_id", jb.2),
      ("job_info", jb.1),
      ("data", result)]
  | .error e =>
    .obj [("success", .bool false), ("error", .str e),
      ("message", .str ("Failed to execute script " ++ toString script_id ++
        ". Check that script ID is valid and all required parameters are provided."))]

/-- Tool `get_script_job_status`: fetch the job record and surface its
`status.value` and `completed` fields; a non-dict `status` value makes the
inner `.get` raise. -/
def get_script_job_status (c : Client) (job_id : Int) : JValue :=
  match c.get "core/jobs" (some job_id) none with
  | .error e => errEnv e
  | .ok job =>
    match job with
    | .obj fields =>
      match (pyGetKey fields "status").getD (.obj []) with
      | .obj sf =>
        .obj [("success", .bool true), ("data", job),
          ("status", (pyGetKey sf "value").getD .null),
          ("completed", (pyGetKey fields "completed").getD .null)]
      | _ => errEnv "AttributeError: object has no attribute get"
    | _ =>
      .obj [("success", .bool true), ("data", job), ("status", .null),
        ("completed", .null)]

/-- The query dictionary of `list_script_jobs`: the limit, the fixed script
object type, and the name filter when one is given and truthy. -/
def list_script_jobs_query (limit : Int) (script_name : Option String) :
    Dict :=
  let params : Dict := [("limit", .num limit),
    ("object_type", .str "extras.script")]
  match script_name with
  | some s => if s != "" then dictSet params "name" (.str s) else params
  | none => params

/-- Tool `list_script_jobs`. -/
def list_script_jobs (c : Client) (limit : Int := 50)
    (script_name : Option String := none) : JValue :=
  mkGetResult
    (c.get "core/jobs" none (some (list_script_jobs_query limit script_name)))

/-- Modelled from the spec wording of claim C8, for comparison with the
source `build_url`: only the trailing slash is stripped from the
collection name. -/
def build_url_claim (base_url endpoint : String) (id : Option Int) : String :=
  let e := rstripSlash endpoint
  match id with
  | some i =>
    NetBoxRestClient.api_url base_url ++ "/" ++ e ++ "/" ++ toString i ++ "/"
  | none => NetBoxRestClient.api_url base_url ++ "/" ++ e ++ "/"

/-- Modelled from the spec wording of claim C4, for comparison with the
source extraction: take the id of the nested job object when the response
contains one, else the top-level id when present, else null. -/
def jobIdSpec (result : JValue) : JValue :=
  match result with
  | .obj fields =>
    match pyGetKey fields "job" with
    | some (.obj jf) => (pyGetKey jf "id").getD .null
    | _ =>
      match pyGetKey fields "id" with
      | some v => v
      | none => .null
  | _ => .null

/-- Whether a JSON value is an object. -/
def isObjV : JValue → Bool
  | .obj _ => true
  | _ => false


mutual
/-- Python repr of a decoded JSON value: the rendering Python uses for the
elements of containers (single-quoted strings, True/False/None, bracketed
lists, braced dicts). -/
def pyRepr : JValue → String
  | .null => "None"
  | .bool true => "True"
  | .bool false => "False"
  | .num n => toString n
  | .str s => "\x27" ++ s ++ "\x27"
  | .arr xs => "[" ++ String.intercalate ", " (pyReprList xs) ++ "]"
  | .obj fs => "\x7b" ++ String.intercalate ", " (pyReprFields fs) ++ "\x7d"
def pyReprList : List JValue → List String
  | [] => []
  | v :: vs => pyRepr v :: pyReprList vs
def pyReprFields : List (String × JValue) → List String
  | [] => []
  | (k, v) :: fs => ("\x27" ++ k ++ "\x27: " ++ pyRepr v) :: pyReprFields fs
end

/-- Python str of a decoded JSON value, as an f-string interpolates it: a
string renders bare, everything else as its repr. -/
def pyStr : JValue → String
  | .str s => s
  | v => pyRepr v

/-- A guidance record as the JSON object the handler returns, with the keys
in assignment order: type, required, help, example. -/
def guidanceToJ (g : Guidance) : JValue :=
  .obj [("type", .str g.type), ("required", .bool g.required),
    ("help", .str g.help), ("example", .str g.hintExample)]

/-- The guidance dispatch over a raw JSON-valued type tag: a string tag goes
through `guidanceFor` (the Python equality of a string against the four tag
literals is string equality), and a non-string tag compares unequal to all
four literals and falls into the placeholder branch, whose help text
interpolates the Python str of the value. -/
def guidanceForJ (var_name : String) : JValue → JValue
  | .str ty => guidanceToJ (guidanceFor var_name ty)
  | v =>
    .obj [("type", v), ("required", .bool true),
      ("help", .str ("Provide value for " ++ pyStr v)),
      ("example", .str "See NetBox documentation")]

/-- Tool `get_script_variables`, the full handler: fetch the script record,
reject a non-dict record with the Script-not-found envelope, pull the vars
mapping (an empty dict when missing; a non-dict value makes the item
iteration raise), and emit one guidance record per declared parameter.
Named with a suffix because the guidance core above already carries the
source name. -/
def get_script_variables_tool (c : Client) (script_id : Int) : JValue :=
  match c.get "extras/scripts" (some script_id) none with
  | .error e => errEnv e
  | .ok script =>
    match script with
    | .obj fields =>
      match (pyGetKey fields "vars").getD (.obj []) with
      | .obj vars_dict =>
        let var_guidance := vars_dict.foldl
          (fun acc p => dictSet acc p.1 (guidanceForJ p.1 p.2)) []
        .obj [("success", .bool true), ("script_id", .num script_id),
          ("script_name", (pyGetKey fields "name").getD .null),
          ("description", (pyGetKey fields "description").getD .null),
          ("variables", .obj var_guidance)]
      | _ => errEnv "AttributeError: object has no attribute items"
    | _ => .obj [("success", .bool false), ("error", .str "Script not found")]

/-- One searched field of a catalog entry in `find_custom_script`: the
Python expression script.get(key, "").lower().  A missing key defaults to
the empty string; a present non-string value (such as null) makes the lower
call raise. -/
def lowerField (script : Dict) (k : String) : Except String String :=
  match (pyGetKey script k).getD (.str "") with
  | .str s => .ok (pyLower s)
  | _ => .error "AttributeError: object has no attribute lower"

/-- The relevance scoring of `find_custom_script` over the three already
lowercased field strings, as the handler computes it inline: whole-query
substring hits on name (+10), description (+5) and display (+3), then +2
per query word longer than two characters found in the name and +1 per such
word found in the description. -/
def relevanceOf (query_lower name description display : String) : Nat :=
  let base :=
    (if strIn query_lower name then 10 else 0) +
    (if strIn query_lower description then 5 else 0) +
    (if strIn query_lower display then 3 else 0)
  (pySplit query_lower).foldl (fun acc word =>
    if word.length > 2 then
      acc + (if strIn word name then 2 else 0) +
        (if strIn word description then 1 else 0)
    else acc) base

/-- One loop iteration of `find_custom_script` over a raw catalog entry:
lower the three searched fields (raising on a non-dict entry or a
non-string field value), score the entry, and pair the merged dict (the
entry with the relevance key assigned) with the score the sort key reads. -/
def scoreScript (query_lower : String) : JValue → Except String (Dict × Nat)
  | .obj script => do
    let name ← lowerField script "name"
    let description ← lowerField script "description"
    let display ← lowerField script "display"
    let r := relevanceOf query_lower name description display
    return (dictSet script "relevance" (.num r), r)
  | _ => .error "AttributeError: object has no attribute get"

/-- Python dict pop with a default: drop the entry with the key. -/
def pyPop (d : Dict) (k : String) : Dict :=
  d.filter (fun p => !(p.1 == k))

/-- Stable descending insertion for the merged match dicts, by the stored
relevance sort key; the same order as `insertPair`. -/
def insertPairJ (a : Dict × Nat) : List (Dict × Nat) → List (Dict × Nat)
  | [] => [a]
  | b :: bs => if a.2 < b.2 then b :: insertPairJ a bs else a :: b :: bs

/-- Stable sort by descending relevance for the merged match dicts. -/
def sortPairsJ : List (Dict × Nat) → List (Dict × Nat)
  | [] => []
  | a :: as => insertPairJ a (sortPairsJ as)

/-- Tool `find_custom_script`, the full handler: fetch the catalog through
`get_custom_scripts`, forward its envelope unchanged when it reports
failure, otherwise score every entry of its data list, keep the positive
scores, sort them stably by descending score, and return the matches with
the relevance key popped off.  Named with a suffix because the catalog-level
search above already carries the source name. -/
def find_custom_script_tool (c : Client) (query : String) : JValue :=
  let all_scripts_result := get_custom_scripts c
  match all_scripts_result with
  | .obj fields =>
    if !(pyTruthy ((pyGetKey fields "success").getD .null)) then
      all_scripts_result
    else
      let all_scripts := (pyGetKey fields "data").getD (.arr [])
      let query_lower := pyLower query
      match pyIter all_scripts >>=
          (fun xs => xs.mapM (scoreScript query_lower)) with
      | .error e => errEnv e
      | .ok scored =>
        let ms := scored.filter (fun p => 0 < p.2)
        let sorted := sortPairsJ ms
        .obj [("success", .bool true), ("query", .str query),
          ("count", .num sorted.length),
          ("matches", .arr (sorted.map (fun p => .obj (pyPop p.1 "relevance"))))]
  | _ => errEnv "AttributeError: object has no attribute get"

/-! ### Dictionary lemmas -/

theorem pyGetKey_cons_pos {p : String × JValue} {k : String}
    (h : (p.1 == k) = true) (rest : Dict) :
    pyGetKey (p :: rest) k = some p.2 := by
  unfold pyGetKey
  rw [@List.find?_cons_of_pos _ (fun q => q.1 == k) p rest h]
  rfl

theorem pyGetKey_cons_neg {p : String × JValue} {k : String}
    (h : (p.1 == k) = false) (rest : Dict) :
    pyGetKey (p :: rest) k = pyGetKey rest k := by
  unfold pyGetKey
  rw [@List.find?_cons_of_neg _ (fun q => q.1 == k) p rest (by simp [h])]

theorem memKey_cons (p : String × JValue) (rest : Dict) (k : String) :
    memKey (p :: rest) k = ((p.1 == k) || memKey rest k) := rfl

theorem memKey_eq_isSome_pyGetKey (d : Dict) (k : String) :
    memKey d k = (pyGetKey d k).isSome := by
  induction d with
  | nil => rfl
  | cons p rest ih =>
    by_cases h : (p.1 == k) = true
    · rw [memKey_cons, h, Bool.true_or, pyGetKey_cons_pos h]
      rfl
    · have h' : (p.1 == k) = false := by simpa using h
      rw [memKey_cons, h', Bool.false_or, pyGetKey_cons_neg h']
      exact ih

theorem pyGetKey_eq_none_of_not_mem {d : Dict} {k : String}
    (h : memKey d k = false) : pyGetKey d k = none := by
  rw [memKey_eq_isSome_pyGetKey] at h
  exact Option.not_isSome_iff_eq_none.mp (by simp [h])

theorem pyGetKey_append (d₁ d₂ : Dict) (k : String) :
    pyGetKey (d₁ ++ d₂) k = (pyGetKey d₁ k).or (pyGetKey d₂ k) := by
  unfold pyGetKey
  rw [List.find?_append]
  cases List.find? (fun p => p.1 == k) d₁ <;> simp

theorem pyGetKey_map_set_self {d : Dict} {k : String} (v : JValue)
    (h : memKey d k = true) :
    pyGetKey (d.map (fun p => if p.1 == k then (k, v) else p)) k = some v := by
  induction d with
  | nil => simp [memKey] at h
  | cons p rest ih =>
    by_cases hp : (p.1 == k) = true
    · simp only [List.map_cons, if_pos hp]
      exact @pyGetKey_cons_pos (k, v) k (by simp) _
    · have hp' : (p.1 == k) = false := by simpa using hp
      have hrest : memKey rest k = true := by
        rw [memKey_cons, hp', Bool.false_or] at h
        exact h
      simp only [List.map_cons, if_neg hp]
      rw [pyGetKey_cons_neg hp']
      exact ih hrest

theorem pyGetKey_map_set_ne {d : Dict} {k k' : String} (v : JValue)
    (h : (k' == k) = false) :
    pyGetKey (d.map (fun p => if p.1 == k' then (k', v) else p)) k =
      pyGetKey d k := by
  induction d with
  | nil => rfl
  | cons p rest ih =>
    by_cases hp : (p.1 == k') = true
    · have hpk : (p.1 == k) = false := by
        have : p.1 = k' := by simpa [beq_iff_eq] using hp
        rw [this]
        exact h
      simp only [List.map_cons, if_pos hp]
      rw [@pyGetKey_cons_neg (k', v) k h, pyGetKey_cons_neg hpk]
      exact ih
    · simp only [List.map_cons, if_neg hp]
      by_cases hpk : (p.1 == k) = true
      · rw [pyGetKey_cons_pos hpk, pyGetKey_cons_pos hpk]
      · have hpk' : (p.1 == k) = false := by simpa using hpk
        rw [pyGetKey_cons_neg hpk', pyGetKey_cons_neg hpk']
        exact ih

theorem pyGetKey_dictSet_self (d : Dict) (k : String) (v : JValue) :
    pyGetKey (dictSet d k v) k = some v := by
  unfold dictSet
  by_cases h : memKey d k
  · rw [if_pos h]
    exact pyGetKey_map_set_self v h
  · have h' : memKey d k = false := by simpa using h
    rw [if_neg (by simp [h'])]
    rw [pyGetKey_append, pyGetKey_eq_none_of_not_mem h']
    rw [@pyGetKey_cons_pos (k, v) k (by simp) _]
    rfl

theorem pyGetKey_dictSet_ne (d : Dict) {k k' : String} (v : JValue)
    (h : (k' == k) = false) :
    pyGetKey (dictSet d k' v) k = pyGetKey d k := by
  unfold dictSet
  by_cases hm : memKey d k'
  · rw [if_pos hm]
    exact pyGetKey_map_set_ne v h
  · rw [if_neg hm]
    rw [pyGetKey_append, @pyGetKey_cons_neg (k', v) k h]
    cases hq : pyGetKey d k with
    | none => rfl
    | some w => rfl

theorem pyGetKey_dictUpdate_not_mem {u : Dict} {k : String} (d : Dict)
    (h : memKey u k = false) :
    pyGetKey (dictUpdate d u) k = pyGetKey d k := by
  induction u generalizing d with
  | nil => rfl
  | cons p rest ih =>
    rw [memKey_cons, Bool.or_eq_false_iff] at h
    have h1 : pyGetKey (dictUpdate (dictSet d p.1 p.2) rest) k =
        pyGetKey (dictSet d p.1 p.2) k := ih _ h.2
    simp only [dictUpdate, List.foldl_cons] at h1 ⊢
    rw [h1, pyGetKey_dictSet_ne d p.2 h.1]

theorem memKey_reverse (d : Dict) (k : String) :
    memKey d.reverse k = memKey d k := by
  simp [memKey, List.any_reverse]

theorem pyGetKey_dictUpdate_mem {u : Dict} {k : String} (d : Dict)
    (h : memKey u k = true) :
    pyGetKey (dictUpdate d u) k = lastLookup u k := by
  induction u generalizing d with
  | nil => simp [memKey] at h
  | cons p rest ih =>
    by_cases hr : memKey rest k = true
    · have h1 := ih (dictSet d p.1 p.2) hr
      simp only [dictUpdate, List.foldl_cons] at h1 ⊢
      rw [h1]
      unfold lastLookup
      simp only [List.reverse_cons]
      rw [pyGetKey_append]
      have hs : (pyGetKey rest.reverse k).isSome := by
        rw [← memKey_eq_isSome_pyGetKey, memKey_reverse]
        exact hr
      cases hh : pyGetKey rest.reverse k with
      | none => rw [hh] at hs; simp at hs
      | some w => simp [lastLookup, hh]
    · obtain ⟨k₁, v₁⟩ := p
      have hr' : memKey rest k = false := by simpa using hr
      have hk : (k₁ == k) = true := by
        rw [memKey_cons, hr', Bool.or_false] at h
        exact h
      have hkk : k₁ = k := by simpa [beq_iff_eq] using hk
      subst hkk
      simp only [dictUpdate, List.foldl_cons]
      have h1 : pyGetKey (dictUpdate (dictSet d k₁ v₁) rest) k₁ =
          pyGetKey (dictSet d k₁ v₁) k₁ :=
        pyGetKey_dictUpdate_not_mem _ hr'
      simp only [dictUpdate] at h1
      rw [h1, pyGetKey_dictSet_self]
      unfold lastLookup
      simp only [List.reverse_cons]
      rw [pyGetKey_append,
        pyGetKey_eq_none_of_not_mem (by rw [memKey_reverse]; exact hr'),
        @pyGetKey_cons_pos (k₁, v₁) k₁ (by simp) []]
      rfl

/-! ### Envelope lemmas -/

theorem envelopeOk_mkGetResult (r : Except String JValue) :
    envelopeOk (mkGetResult r) = true := by
  cases r <;> rfl

theorem envelopeOk_delete_object (c : Client) (endpoint : String)
    (object_id : Int) : envelopeOk (delete_object c endpoint object_id) = true := by
  unfold delete_object
  cases c.delete endpoint object_id with
  | ok b => rfl
  | error e => rfl

theorem envelopeOk_get_custom_scripts (c : Client) :
    envelopeOk (get_custom_scripts c) = true := by
  unfold get_custom_scripts
  cases c.get "extras/scripts" none none with
  | error e => rfl
  | ok response =>
    simp only []
    cases pyIter (scripts_list_value response) >>=
        (fun xs => xs.mapM enhanceScript) with
    | error e => rfl
    | ok l => rfl

theorem envelopeOk_search_for_object_id (c : Client)
    (endpoint search_name : String) :
    envelopeOk (search_for_object_id c endpoint search_name) = true := by
  unfold search_for_object_id
  cases c.get endpoint none (some [("q", .str search_name), ("limit", .num 10)]) with
  | error e => rfl
  | ok results =>
    simp only []
    cases pyIter (scripts_list_value results) >>=
        (fun xs => xs.mapM simplifyMatch) with
    | error e => rfl
    | ok l => rfl

theorem envelopeOk_execute_custom_script (c : Client) (script_id : Int)
    (data : Option Dict) (commit : Bool) :
    envelopeOk (execute_custom_script c script_id data commit) = true := by
  unfold execute_custom_script
  simp only []
  cases c.create ("extras/scripts/" ++ toString script_id)
      (execPayload data commit) with
  | ok result => rfl
  | error e => rfl

theorem envelopeOk_get_script_job_status (c : Client) (job_id : Int) :
    envelopeOk (get_script_job_status c job_id) = true := by
  unfold get_script_job_status
  cases c.get "core/jobs" (some job_id) none with
  | error e => rfl
  | ok job =>
    simp only []
    cases job with
    | obj fields =>
      simp only []
      cases (pyGetKey fields "status").getD (.obj []) <;> rfl
    | null => rfl
    | bool b => rfl
    | num n => rfl
    | str s => rfl
    | arr xs => rfl

theorem envelopeOk_get_script_variables_tool (c : Client) (script_id : Int) :
    envelopeOk (get_script_variables_tool c script_id) = true := by
  unfold get_script_variables_tool
  cases c.get "extras/scripts" (some script_id) none with
  | error e => rfl
  | ok script =>
    simp only []
    cases script with
    | obj fields =>
      simp only []
      cases (pyGetKey fields "vars").getD (.obj []) <;> rfl
    | null => rfl
    | bool b => rfl
    | num n => rfl
    | str s => rfl
    | arr xs => rfl

theorem envelopeOk_find_custom_script_tool (c : Client) (query : String) :
    envelopeOk (find_custom_script_tool c query) = true := by
  have h := envelopeOk_get_custom_scripts c
  unfold find_custom_script_tool
  simp only []
  cases hg : get_custom_scripts c with
  | obj fields =>
    rw [hg] at h
    simp only []
    by_cases hs : pyTruthy ((pyGetKey fields "success").getD .null) = true
    · simp only [hs, Bool.not_true, Bool.false_eq_true, if_false]
      cases pyIter ((pyGetKey fields "data").getD (.arr [])) >>=
          (fun xs => xs.mapM (scoreScript (pyLower query))) with
      | error e => rfl
      | ok scored => rfl
    · have hs' : pyTruthy ((pyGetKey fields "success").getD .null) = false := by
        simpa using hs
      simp only [hs', Bool.not_false, if_true]
      exact h
  | null => rfl
  | bool b => rfl
  | num n => rfl
  | str s => rfl
  | arr xs => rfl

/-! ### Claim theorems -/

/-- C1: every tool handler of the source (all twenty-one) returns exactly
one envelope object whose `success` key holds a boolean, for every client
outcome; and when the underlying client call raises, the handler returns
the `{success: false, error: message}` envelope instead of propagating the
exception (the handlers are total functions into `JValue`, so no exception
escapes). -/
theorem tools_return_envelope_and_catch_errors :
    ∀ (c : Client) (e : String)
      (limit device_type_id site_id object_id script_id job_id : Int)
      (osite ovrf oman : Option Int) (params odata : Option Dict)
      (endpoint q name slug status description address : String)
      (data : Dict) (commit : Bool) (oname : Option String),
    (envelopeOk (get_sites c limit params) = true ∧
      get_sites (errClient e) limit params = errEnv e) ∧
    (envelopeOk (get_site_by_id c site_id) = true ∧
      get_site_by_id (errClient e) site_id = errEnv e) ∧
    (envelopeOk (create_site c name slug status description) = true ∧
      create_site (errClient e) name slug status description = errEnv e) ∧
    (envelopeOk (get_devices c limit osite params) = true ∧
      get_devices (errClient e) limit osite params = errEnv e) ∧
    (envelopeOk (get_device_by_id c object_id) = true ∧
      get_device_by_id (errClient e) object_id = errEnv e) ∧
    (envelopeOk (create_device c name device_type_id site_id status) = true ∧
      create_device (errClient e) name device_type_id site_id status = errEnv e) ∧
    (envelopeOk (get_device_types c limit oman) = true ∧
      get_device_types (errClient e) limit oman = errEnv e) ∧
    (envelopeOk (get_ip_addresses c limit ovrf params) = true ∧
      get_ip_addresses (errClient e) limit ovrf params = errEnv e) ∧
    (envelopeOk (create_ip_address c address status description) = true ∧
      create_ip_address (errClient e) address status description = errEnv e) ∧
    (envelopeOk (get_prefixes c limit ovrf params) = true ∧
      get_prefixes (errClient e) limit ovrf params = errEnv e) ∧
    (envelopeOk (get_vlans c limit osite) = true ∧
      get_vlans (errClient e) limit osite = errEnv e) ∧
    (envelopeOk (search_objects c endpoint q limit) = true ∧
      search_objects (errClient e) endpoint q limit = errEnv e) ∧
    (envelopeOk (update_object c endpoint object_id data) = true ∧
      update_object (errClient e) endpoint object_id data = errEnv e) ∧
    (envelopeOk (delete_object c endpoint object_id) = true ∧
      delete_object (errClient e) endpoint object_id = errEnv e) ∧
    (envelopeOk (get_custom_scripts c) = true ∧
      get_custom_scripts (errClient e) = errEnv e) ∧
    (envelopeOk (search_for_object_id c endpoint name) = true ∧
      search_for_object_id (errClient e) endpoint name = errEnv e) ∧
    (envelopeOk (execute_custom_script c script_id odata commit) = true ∧
      envLookup (execute_custom_script (errClient e) script_id odata commit)
        "success" = some (.bool false) ∧
      envLookup (execute_custom_script (errClient e) script_id odata commit)
        "error" = some (.str e)) ∧
    (envelopeOk (get_script_job_status c job_id) = true ∧
      get_script_job_status (errClient e) job_id = errEnv e) ∧
    (envelopeOk (list_script_jobs c limit oname) = true ∧
      list_script_jobs (errClient e) limit oname = errEnv e) ∧
    (envelopeOk (get_script_variables_tool c script_id) = true ∧
      get_script_variables_tool (errClient e) script_id = errEnv e) ∧
    (envelopeOk (find_custom_script_tool c q) = true ∧
      find_custom_script_tool (errClient e) q = errEnv e) := by
  intro c e limit device_type_id site_id object_id script_id job_id
    osite ovrf oman params odata endpoint q name slug status description
    address data commit oname
  refine ⟨⟨envelopeOk_mkGetResult _, rfl⟩, ⟨envelopeOk_mkGetResult _, rfl⟩,
    ⟨envelopeOk_mkGetResult _, rfl⟩, ⟨envelopeOk_mkGetResult _, rfl⟩,
    ⟨envelopeOk_mkGetResult _, rfl⟩, ⟨envelopeOk_mkGetResult _, rfl⟩,
    ⟨envelopeOk_mkGetResult _, rfl⟩, ⟨envelopeOk_mkGetResult _, rfl⟩,
    ⟨envelopeOk_mkGetResult _, rfl⟩, ⟨envelopeOk_mkGetResult _, rfl⟩,
    ⟨envelopeOk_mkGetResult _, rfl⟩, ⟨envelopeOk_mkGetResult _, rfl⟩,
    ⟨envelopeOk_mkGetResult _, rfl⟩,
    ⟨envelopeOk_delete_object c endpoint object_id, rfl⟩,
    ⟨envelopeOk_get_custom_scripts c, rfl⟩,
    ⟨envelopeOk_search_for_object_id c endpoint name, rfl⟩,
    ⟨envelopeOk_execute_custom_script c script_id odata commit, rfl, rfl⟩,
    ⟨envelopeOk_get_script_job_status c job_id, rfl⟩,
    ⟨envelopeOk_mkGetResult _, rfl⟩,
    ⟨envelopeOk_get_script_variables_tool c script_id, rfl⟩,
    ⟨envelopeOk_find_custom_script_tool c q, rfl⟩⟩

/-- C2 counterexample: a 200 OK response to a delete does not raise and is
not 204, so the client returns false rather than a transport error, against
the claim that any non-204 status yields an error. -/
theorem delete_status_200_returns_false :
    NetBoxRestClient.delete 200 = Except.ok false ∧
      ¬ ∃ msg, NetBoxRestClient.delete 200 = Except.error msg := by
  constructor
  · rfl
  · rintro ⟨msg, hmsg⟩
    simp [NetBoxRestClient.delete, raise_for_status] at hmsg

/-- C2 amended: `delete` returns true exactly for a 204 status; statuses in
400..599 raise and surface as a transport error; any other status (other
2xx and 3xx responses) returns false rather than an error. -/
theorem delete_success_iff_204 : ∀ status : Nat,
    (NetBoxRestClient.delete status = .ok true ↔ status = 204) ∧
    (400 ≤ status → status < 600 →
      NetBoxRestClient.delete status =
        .error ("HTTP error " ++ toString status)) ∧
    (¬ (400 ≤ status ∧ status < 600) → status ≠ 204 →
      NetBoxRestClient.delete status = .ok false) := by
  intro status
  by_cases h : 400 ≤ status ∧ status < 600
  · refine ⟨?_, fun _ _ => ?_, fun hc _ => absurd h hc⟩
    · simp only [NetBoxRestClient.delete, raise_for_status, if_pos h]
      constructor
      · intro hok
        exact absurd hok (by simp)
      · intro h204
        omega
    · simp only [NetBoxRestClient.delete, raise_for_status, if_pos h]
  · refine ⟨?_, fun h4 h6 => absurd ⟨h4, h6⟩ h, fun _ hne => ?_⟩
    · simp only [NetBoxRestClient.delete, raise_for_status, if_neg h]
      simp [beq_iff_eq]
    · simp only [NetBoxRestClient.delete, raise_for_status, if_neg h]
      simp [beq_eq_false_iff_ne.mpr hne]

/-- C2 witness: the amended statement evaluated at the statuses 204, 404
and 200. -/
theorem delete_success_iff_204_witness :
    NetBoxRestClient.delete 204 = .ok true ∧
      NetBoxRestClient.delete 404 = .error ("HTTP error " ++ toString 404) ∧
      NetBoxRestClient.delete 200 = .ok false :=
  ⟨(delete_success_iff_204 204).1.mpr rfl,
    (delete_success_iff_204 404).2.1 (by omega) (by omega),
    (delete_success_iff_204 200).2.2 (by omega) (by omega)⟩

/-- C3: for a successful response, `get` without an id yields a sequence,
whether the payload is a bare array of objects or a `results` page
wrapper. -/
theorem get_without_id_yields_sequence :
    ∀ (status : Nat) (xs : List JValue) (fields : Dict),
    status < 400 →
    ((∀ x ∈ xs, isObjV x = true) →
      NetBoxRestClient.get status none (.arr xs) = .ok (.arr xs)) ∧
    (pyGetKey fields "results" = some (.arr xs) →
      NetBoxRestClient.get status none (.obj fields) = .ok (.arr xs)) := by
  intro status xs fields hst
  have hr : raise_for_status status = .ok () := by
    unfold raise_for_status
    rw [if_neg (by omega)]
  constructor
  · intro hobj
    have hany : (xs.any (fun x =>
        match x with | .str s => s == "results" | _ => false)) = false := by
      rw [List.any_eq_false]
      intro x hx
      have hb := hobj x hx
      cases x <;> simp_all [isObjV]
    simp only [NetBoxRestClient.get, hr, NetBoxRestClient.pyInResults, hany]
  · intro hres
    have hmem : memKey fields "results" = true := by
      rw [memKey_eq_isSome_pyGetKey, hres]
      rfl
    simp only [NetBoxRestClient.get, hr, NetBoxRestClient.pyInResults, hmem,
      NetBoxRestClient.pyIndexResults, hres]

/-- C3 witness: the page-wrapper scenario of the specification, two sites
behind a `results` wrapper with a 200 status. -/
theorem get_without_id_yields_sequence_witness :
    NetBoxRestClient.get 200 none
        (.obj [("results", .arr [.obj [("id", .num 1), ("name", .str "A")],
          .obj [("id", .num 2), ("name", .str "B")]])]) =
      .ok (.arr [.obj [("id", .num 1), ("name", .str "A")],
        .obj [("id", .num 2), ("name", .str "B")]]) :=
  (get_without_id_yields_sequence 200
    [.obj [("id", .num 1), ("name", .str "A")],
      .obj [("id", .num 2), ("name", .str "B")]]
    [("results", .arr [.obj [("id", .num 1), ("name", .str "A")],
      .obj [("id", .num 2), ("name", .str "B")]])] (by omega)).2 rfl

/-- C4 counterexample: a submission response holding a `job` key with a
non-object value next to a top-level id.  The claimed policy (no nested job
object, so take the top-level id) demands 99, but the code suppresses the
fallback whenever the `job` key is present and reports a null job id. -/
theorem execute_job_id_null_job_counterexample :
    envLookup (execute_custom_script
        (constClient (.obj [("job", .null), ("id", .num 99)])) 17 none true)
      "job_id" = some .null ∧
    jobIdSpec (.obj [("job", .null), ("id", .num 99)]) = .num 99 ∧
    JValue.null ≠ JValue.num 99 := by
  refine ⟨rfl, rfl, ?_⟩
  intro h
  exact JValue.noConfusion h

/-- C4 amended: for a successful submission, `execute_custom_script`
reports success and a job id determined by: when the response object has a
`job` key, the id of its value if that value is an object and null
otherwise (a non-object `job` value suppresses the top-level fallback);
when it has no `job` key, the top-level `id` if present; else null. -/
theorem execute_job_id_extraction :
    ∀ (c : Client) (script_id : Int) (data : Option Dict) (commit : Bool)
      (result : JValue) (fields jf : Dict),
    c.create ("extras/scripts/" ++ toString script_id)
        (execPayload data commit) = .ok result →
    (envLookup (execute_custom_script c script_id data commit) "success" =
        some (.bool true) ∧
      envLookup (execute_custom_script c script_id data commit) "job_id" =
        some (extract_job result).2) ∧
    (result = .obj fields → pyGetKey fields "job" = some (.obj jf) →
      (extract_job result).2 = (pyGetKey jf "id").getD .null) ∧
    (result = .obj fields → ∀ j, pyGetKey fields "job" = some j →
      isObjV j = false → (extract_job result).2 = .null) ∧
    (result = .obj fields → pyGetKey fields "job" = none →
      (extract_job result).2 = (pyGetKey fields "id").getD .null) ∧
    (isObjV result = false → (extract_job result).2 = .null) := by
  intro c script_id data commit result fields jf hc
  refine ⟨⟨?_, ?_⟩, ?_, ?_, ?_, ?_⟩
  · simp only [execute_custom_script, hc]
    rfl
  · simp only [execute_custom_script, hc]
    rfl
  · intro hres hjob
    subst hres
    simp only [extract_job, hjob]
  · intro hres j hjob hnj
    subst hres
    simp only [extract_job, hjob]
    cases j <;> simp_all [isObjV]
  · intro hres hjob
    subst hres
    cases hid : pyGetKey fields "id" <;> simp [extract_job, hjob, hid]
  · intro hno
    cases result <;> simp_all [isObjV, extract_job]

/-- C4 witness: the three response shapes of the specification evaluated
through the amended statement. -/
theorem execute_job_id_extraction_witness :
    envLookup (execute_custom_script
        (constClient (.obj [("job", .obj [("id", .num 42)])])) 17 none true)
      "job_id" = some (.num 42) ∧
    envLookup (execute_custom_script (constClient (.obj [("id", .num 99)]))
        18 none true) "job_id" = some (.num 99) ∧
    envLookup (execute_custom_script (constClient (.obj [("x", .bool true)]))
        19 none true) "job_id" = some .null ∧
    envLookup (execute_custom_script (constClient (.obj [("x", .bool true)]))
        19 none true) "success" = some (.bool true) := by
  have h1 := execute_job_id_extraction
    (constClient (.obj [("job", .obj [("id", .num 42)])])) 17 none true
    (.obj [("job", .obj [("id", .num 42)])])
    [("job", .obj [("id", .num 42)])] [("id", .num 42)] rfl
  have h2 := execute_job_id_extraction
    (constClient (.obj [("id", .num 99)])) 18 none true
    (.obj [("id", .num 99)]) [("id", .num 99)] [] rfl
  have h3 := execute_job_id_extraction
    (constClient (.obj [("x", .bool true)])) 19 none true
    (.obj [("x", .bool true)]) [("x", .bool true)] [] rfl
  exact ⟨h1.1.2.trans (congrArg some (h1.2.1 rfl rfl)),
    h2.1.2.trans (congrArg some (h2.2.2.2.1 rfl rfl)),
    h3.1.2.trans (congrArg some (h3.2.2.2.1 rfl rfl)), h3.1.1⟩

/-! ### Sorting lemmas for the script search -/

theorem mem_insertPair (a x : Script × Nat) (l : List (Script × Nat)) :
    x ∈ insertPair a l ↔ x = a ∨ x ∈ l := by
  induction l with
  | nil => simp [insertPair]
  | cons b bs ih =>
    unfold insertPair
    by_cases hab : a.2 < b.2
    · rw [if_pos hab]
      simp only [List.mem_cons, ih]
      tauto
    · rw [if_neg hab]
      simp only [List.mem_cons]

theorem mem_sortPairs (x : Script × Nat) (l : List (Script × Nat)) :
    x ∈ sortPairs l ↔ x ∈ l := by
  induction l with
  | nil => simp [sortPairs]
  | cons a as ih =>
    unfold sortPairs
    rw [mem_insertPair, ih]
    simp only [List.mem_cons]

theorem insertPair_filter_key (k : Nat) (a : Script × Nat)
    (l : List (Script × Nat)) :
    (insertPair a l).filter (fun p => p.2 == k) =
      ((a :: l).filter (fun p => p.2 == k)) := by
  induction l with
  | nil => rfl
  | cons b bs ih =>
    unfold insertPair
    by_cases hab : a.2 < b.2
    · rw [if_pos hab]
      by_cases hbk : (b.2 == k) = true
      · have hbkeq : b.2 = k := by simpa [beq_iff_eq] using hbk
        have hak : (a.2 == k) = false := beq_eq_false_iff_ne.mpr (by omega)
        simp only [List.filter_cons, hbk, hak, if_true, if_false, ih,
          Bool.false_eq_true]
      · have hbk' : (b.2 == k) = false := by simpa using hbk
        simp only [List.filter_cons, hbk', ih, Bool.false_eq_true, if_false]
    · rw [if_neg hab]

theorem sortPairs_filter_key (k : Nat) (l : List (Script × Nat)) :
    (sortPairs l).filter (fun p => p.2 == k) =
      l.filter (fun p => p.2 == k) := by
  induction l with
  | nil => rfl
  | cons a as ih =>
    unfold sortPairs
    rw [insertPair_filter_key]
    simp only [List.filter_cons, ih]

theorem pairwise_insertPair (a : Script × Nat) (l : List (Script × Nat))
    (h : l.Pairwise (fun x y => y.2 ≤ x.2)) :
    (insertPair a l).Pairwise (fun x y => y.2 ≤ x.2) := by
  induction l with
  | nil => simp [insertPair]
  | cons b bs ih =>
    rw [List.pairwise_cons] at h
    unfold insertPair
    by_cases hab : a.2 < b.2
    · rw [if_pos hab]
      rw [List.pairwise_cons]
      constructor
      · intro y hy
        rcases (mem_insertPair a y bs).mp hy with hya | hyb
        · rw [hya]
          omega
        · exact h.1 y hyb
      · exact ih h.2
    · rw [if_neg hab]
      rw [List.pairwise_cons]
      constructor
      · intro y hy
        rcases List.mem_cons.mp hy with hyb | hyb
        · rw [hyb]
          omega
        · have := h.1 y hyb
          omega
      · rw [List.pairwise_cons]
        exact h

theorem pairwise_sortPairs (l : List (Script × Nat)) :
    (sortPairs l).Pairwise (fun x y => y.2 ≤ x.2) := by
  induction l with
  | nil => simp [sortPairs]
  | cons a as ih => exact pairwise_insertPair a (sortPairs as) ih

theorem mem_scored_spec (query : String) (catalog : List Script)
    (p : Script × Nat)
    (hp : p ∈ (catalog.map (fun s => (s, relevance (pyLower query) s))).filter
      (fun q => 0 < q.2)) :
    p.1 ∈ catalog ∧ p.2 = relevance (pyLower query) p.1 ∧ 0 < p.2 := by
  rw [List.mem_filter] at hp
  obtain ⟨hmem, hpos⟩ := hp
  rw [List.mem_map] at hmem
  obtain ⟨s, hs, hmap⟩ := hmem
  refine ⟨?_, ?_, by simpa using hpos⟩
  · rw [← hmap]
    exact hs
  · rw [← hmap]

/-- C5: `find_custom_script` keeps exactly the catalog entries with a
positive relevance score, sorted by descending score; ties keep catalog
order (the sublist at any fixed score equals the filtered catalog sublist
at that score), and the returned entries are the unmodified catalog
records, without the score. -/
theorem find_custom_script_ranking :
    ∀ (query : String) (catalog : List Script),
    ((find_custom_script query catalog).Pairwise
      (fun a b => relevance (pyLower query) b ≤ relevance (pyLower query) a)) ∧
    (∀ s ∈ find_custom_script query catalog,
      s ∈ catalog ∧ 0 < relevance (pyLower query) s) ∧
    (∀ s ∈ catalog, 0 < relevance (pyLower query) s →
      s ∈ find_custom_script query catalog) ∧
    (∀ k : Nat, (find_custom_script query catalog).filter
        (fun s => relevance (pyLower query) s == k) =
      (catalog.filter (fun s => decide (0 < relevance (pyLower query) s))).filter
        (fun s => relevance (pyLower query) s == k)) := by
  intro query catalog
  refine ⟨?_, ?_, ?_, ?_⟩
  · simp only [find_custom_script]
    rw [List.pairwise_map]
    refine List.Pairwise.imp_of_mem ?_ (pairwise_sortPairs _)
    intro p q hpmem hqmem hle
    have hp := mem_scored_spec query catalog p ((mem_sortPairs _ _).mp hpmem)
    have hq := mem_scored_spec query catalog q ((mem_sortPairs _ _).mp hqmem)
    rw [← hp.2.1, ← hq.2.1]
    exact hle
  · intro s hs
    simp only [find_custom_script] at hs
    rw [List.mem_map] at hs
    obtain ⟨p, hpmem, hps⟩ := hs
    have hp := mem_scored_spec query catalog p ((mem_sortPairs _ _).mp hpmem)
    rw [← hps]
    exact ⟨hp.1, by rw [← hp.2.1]; exact hp.2.2⟩
  · intro s hs hpos
    simp only [find_custom_script]
    rw [List.mem_map]
    refine ⟨(s, relevance (pyLower query) s), ?_, rfl⟩
    rw [mem_sortPairs, List.mem_filter]
    constructor
    · rw [List.mem_map]
      exact ⟨s, hs, rfl⟩
    · simpa using hpos
  · intro k
    simp only [find_custom_script]
    rw [List.filter_map]
    have hcongr : ((sortPairs ((catalog.map
          (fun s => (s, relevance (pyLower query) s))).filter
          (fun q => 0 < q.2))).filter
        ((fun s => relevance (pyLower query) s == k) ∘ (fun p => p.1))) =
        ((sortPairs ((catalog.map
          (fun s => (s, relevance (pyLower query) s))).filter
          (fun q => 0 < q.2))).filter (fun p => p.2 == k)) := by
      refine List.filter_congr ?_
      intro p hp
      have hspec := mem_scored_spec query catalog p ((mem_sortPairs _ _).mp hp)
      simp only [Function.comp]
      rw [← hspec.2.1]
    rw [hcongr, sortPairs_filter_key]
    rw [List.filter_filter, List.filter_map, List.filter_filter]
    have hcongr2 :
        catalog.filter ((fun p => p.2 == k && decide (0 < p.2)) ∘
          (fun s => (s, relevance (pyLower query) s))) =
        catalog.filter (fun s => relevance (pyLower query) s == k &&
          decide (0 < relevance (pyLower query) s)) := by
      refine List.filter_congr ?_
      intro s _
      simp [Function.comp]
    rw [hcongr2, List.map_map]
    have hid : ((fun (p : Script × Nat) => p.1) ∘
        (fun s => (s, relevance (pyLower query) s))) =
        (id : Script → Script) := rfl
    rw [hid, List.map_id]

/-- C5 witness: the specification scenario, a catalog with one matching and
one unrelated script; the matching script is returned. -/
theorem find_custom_script_ranking_witness :
    (Script.mk 1 "CreateSiteAndLocations"
        "Script to create a new site and associated floors" "Create Site") ∈
      find_custom_script "create site"
        [⟨2, "DecommissionRack", "Removes a rack", "Rack"⟩,
          ⟨1, "CreateSiteAndLocations",
            "Script to create a new site and associated floors",
            "Create Site"⟩] :=
  (find_custom_script_ranking "create site"
    [⟨2, "DecommissionRack", "Removes a rack", "Rack"⟩,
      ⟨1, "CreateSiteAndLocations",
        "Script to create a new site and associated floors",
        "Create Site"⟩]).2.2.1
    ⟨1, "CreateSiteAndLocations",
      "Script to create a new site and associated floors", "Create Site"⟩
    (by decide) (by decide)

/-- C6: the guidance selection of `get_script_variables`: each declared
parameter gets the record `guidanceFor` selects; an object-reference tag is
routed by case-insensitive name substrings in the order tenant, region,
site, device, with the generic lookup hint as fallback; the scalar tags get
their fixed templates, and unknown tags the placeholder. -/
theorem script_variable_guidance :
    ∀ (vars : List (String × String)) (name ty : String),
    ((name, ty) ∈ vars →
      (name, guidanceFor name ty) ∈ get_script_variables vars) ∧
    (strIn "tenant" (pyLower name) = true →
      guidanceFor name "ObjectVar" = tenantGuidance "ObjectVar") ∧
    (strIn "tenant" (pyLower name) = false →
      strIn "region" (pyLower name) = true →
      guidanceFor name "ObjectVar" = regionGuidance "ObjectVar") ∧
    (strIn "tenant" (pyLower name) = false →
      strIn "region" (pyLower name) = false →
      strIn "site" (pyLower name) = true →
      guidanceFor name "ObjectVar" = siteGuidance "ObjectVar") ∧
    (strIn "tenant" (pyLower name) = false →
      strIn "region" (pyLower name) = false →
      strIn "site" (pyLower name) = false →
      strIn "device" (pyLower name) = true →
      guidanceFor name "ObjectVar" = deviceGuidance "ObjectVar") ∧
    (strIn "tenant" (pyLower name) = false →
      strIn "region" (pyLower name) = false →
      strIn "site" (pyLower name) = false →
      strIn "device" (pyLower name) = false →
      guidanceFor name "ObjectVar" = genericObjectGuidance name "ObjectVar") ∧
    (guidanceFor name "StringVar" = stringGuidance name "StringVar") ∧
    (guidanceFor name "IntegerVar" = integerGuidance "IntegerVar") ∧
    (guidanceFor name "BooleanVar" = booleanGuidance "BooleanVar") ∧
    (ty ≠ "ObjectVar" → ty ≠ "StringVar" → ty ≠ "IntegerVar" →
      ty ≠ "BooleanVar" → guidanceFor name ty = unknownGuidance ty) := by
  intro vars name ty
  refine ⟨?_, ?_, ?_, ?_, ?_, ?_, rfl, rfl, rfl, ?_⟩
  · intro hmem
    unfold get_script_variables
    rw [List.mem_map]
    exact ⟨(name, ty), hmem, rfl⟩
  · intro h1
    simp [guidanceFor, h1]
  · intro h1 h2
    simp [guidanceFor, h1, h2]
  · intro h1 h2 h3
    simp [guidanceFor, h1, h2, h3]
  · intro h1 h2 h3 h4
    simp [guidanceFor, h1, h2, h3, h4]
  · intro h1 h2 h3 h4
    simp [guidanceFor, h1, h2, h3, h4]
  · intro h1 h2 h3 h4
    simp [guidanceFor, beq_eq_false_iff_ne.mpr h1, beq_eq_false_iff_ne.mpr h2,
      beq_eq_false_iff_ne.mpr h3, beq_eq_false_iff_ne.mpr h4]

/-- C6 witness: the parameter mapping `{"tenant": "ObjectVar"}` receives
the tenant lookup hint, not the generic fallback. -/
theorem script_variable_guidance_witness :
    ("tenant", guidanceFor "tenant" "ObjectVar") ∈
      get_script_variables [("tenant", "ObjectVar")] ∧
    guidanceFor "tenant" "ObjectVar" = tenantGuidance "ObjectVar" :=
  ⟨(script_variable_guidance [("tenant", "ObjectVar")] "tenant" "ObjectVar").1
      (by simp),
    (script_variable_guidance [] "tenant" "ObjectVar").2.1 (by decide)⟩

/-- C7 counterexample: a remote list with one empty script entry.  The
normalized descriptor fills the missing description with the placeholder
text "No description available", not with the empty string the claim
names. -/
theorem description_default_counterexample :
    get_custom_scripts (constClient (.arr [.obj []])) =
      .obj [("success", .bool true), ("count", .num 1),
        ("data", .arr [.obj [("id", .null), ("name", .null),
          ("description", .str "No description available"),
          ("display", .null), ("module", .null), ("vars", .obj []),
          ("is_executable", .bool false), ("last_result", .null)]])] ∧
    JValue.str "No description available" ≠ JValue.str "" := by
  refine ⟨rfl, ?_⟩
  intro h
  exact absurd (JValue.str.inj h) (by decide)

/-- C7 amended: `get_custom_scripts` fills every missing optional field of
a script entry with its default: the placeholder text
"No description available" for the description (not the empty string), the
empty mapping for vars, and false for is_executable. -/
theorem get_custom_scripts_defaults :
    ∀ (script : Dict),
    pyGetKey script "description" = none →
    pyGetKey script "vars" = none →
    pyGetKey script "is_executable" = none →
    ∃ e : Dict, enhanceScript (.obj script) = .ok (.obj e) ∧
      pyGetKey e "description" = some (.str "No description available") ∧
      pyGetKey e "vars" = some (.obj []) ∧
      pyGetKey e "is_executable" = some (.bool false) ∧
      get_custom_scripts (constClient (.arr [.obj script])) =
        .obj [("success", .bool true), ("count", .num 1),
          ("data", .arr [.obj e])] := by
  intro script h1 h2 h3
  refine ⟨[("id", (pyGetKey script "id").getD .null),
    ("name", (pyGetKey script "name").getD .null),
    ("description", .str "No description available"),
    ("display", (pyGetKey script "display").getD .null),
    ("module", (pyGetKey script "module").getD .null),
    ("vars", .obj []),
    ("is_executable", .bool false),
    ("last_result", (pyGetKey script "result").getD .null)],
    ?_, rfl, rfl, rfl, ?_⟩
  · simp [enhanceScript, h1, h2, h3]
  · simp [get_custom_scripts, constClient, scripts_list_value, pyIter,
      List.mapM, List.mapM.loop, enhanceScript, h1, h2, h3, Bind.bind,
      Except.bind, pure, Except.pure]

/-- C7 witness: the amended statement at the empty script entry. -/
theorem get_custom_scripts_defaults_witness :
    ∃ e : Dict, enhanceScript (.obj []) = .ok (.obj e) ∧
      pyGetKey e "description" = some (.str "No description available") ∧
      pyGetKey e "vars" = some (.obj []) ∧
      pyGetKey e "is_executable" = some (.bool false) ∧
      get_custom_scripts (constClient (.arr [.obj []])) =
        .obj [("success", .bool true), ("count", .num 1),
          ("data", .arr [.obj e])] :=
  get_custom_scripts_defaults [] rfl rfl rfl

/-! ### URL construction lemmas -/

theorem rstripSlashL_append_slash (l : List Char) :
    rstripSlashL (l ++ ['/']) = rstripSlashL l := by
  unfold rstripSlashL
  rw [List.reverse_append]
  simp [List.dropWhile_cons, slashChar]

theorem stripSlash_cons_slash (e : String) :
    stripSlash ("/" ++ e) = stripSlash e := rfl

theorem stripSlash_append_slash (e : String) :
    stripSlash (e ++ "/") = stripSlash e := by
  unfold stripSlash
  congr 1
  rw [String.data_append]
  have hslash : ("/".data : List Char) = ['/'] := rfl
  rw [hslash, List.dropWhile_append]
  by_cases h : (e.data.dropWhile slashChar).isEmpty
  · rw [if_pos h]
    rw [List.isEmpty_iff] at h
    rw [h]
    rfl
  · rw [if_neg h]
    exact rstripSlashL_append_slash _

theorem rstripSlash_append_slash (b : String) :
    rstripSlash (b ++ "/") = rstripSlash b := by
  unfold rstripSlash
  congr 1
  rw [String.data_append]
  have hslash : ("/".data : List Char) = ['/'] := rfl
  rw [hslash]
  exact rstripSlashL_append_slash _

/-- C8 counterexample: the source strips the leading slash off the
collection name as well, so for the collection "/dcim/sites" the built URL
differs from the one the only-trailing-slash rule of the claim produces. -/
theorem build_url_leading_slash_counterexample :
    NetBoxRestClient.build_url "http://netbox.example.com" "/dcim/sites" none =
      "http://netbox.example.com/api/dcim/sites/" ∧
    build_url_claim "http://netbox.example.com" "/dcim/sites" none =
      "http://netbox.example.com/api//dcim/sites/" ∧
    ("http://netbox.example.com/api/dcim/sites/" : String) ≠
      "http://netbox.example.com/api//dcim/sites/" :=
  ⟨rfl, rfl, by decide⟩

/-- C8 amended: the request URL is pure string composition with all
trailing slashes stripped from the base URL and both leading and trailing
slashes stripped from the collection name; the numeric id is appended when
given, a trailing slash is enforced, and bulk operations live at the fixed
`bulk/` sub-path directly under the collection URL. -/
theorem build_url_composition :
    ∀ (base endpoint : String) (i : Int),
    NetBoxRestClient.build_url base ("/" ++ endpoint) none =
      NetBoxRestClient.build_url base endpoint none ∧
    NetBoxRestClient.build_url base (endpoint ++ "/") none =
      NetBoxRestClient.build_url base endpoint none ∧
    NetBoxRestClient.build_url (base ++ "/") endpoint none =
      NetBoxRestClient.build_url base endpoint none ∧
    NetBoxRestClient.build_url base endpoint (some i) =
      rstripSlash base ++ "/api/" ++ stripSlash endpoint ++ "/" ++
        toString i ++ "/" ∧
    NetBoxRestClient.build_url base endpoint none =
      rstripSlash base ++ "/api/" ++ stripSlash endpoint ++ "/" ∧
    NetBoxRestClient.bulk_url base endpoint =
      NetBoxRestClient.build_url base endpoint none ++ "bulk/" := by
  intro base endpoint i
  have hapi : ("/api/" : String).data = "/api".data ++ "/".data := rfl
  refine ⟨?_, ?_, ?_, ?_, ?_, rfl⟩
  · simp only [NetBoxRestClient.build_url, stripSlash_cons_slash]
  · simp only [NetBoxRestClient.build_url, stripSlash_append_slash]
  · simp only [NetBoxRestClient.build_url, NetBoxRestClient.api_url,
      rstripSlash_append_slash]
  · apply String.ext
    simp only [NetBoxRestClient.build_url, NetBoxRestClient.api_url,
      String.data_append, hapi, List.append_assoc, List.cons_append,
      List.nil_append]
  · apply String.ext
    simp only [NetBoxRestClient.build_url, NetBoxRestClient.api_url,
      String.data_append, hapi, List.append_assoc, List.cons_append,
      List.nil_append]

/-- C9: the list-style read tools default their page size to 50 (25 for the
free-text search tool), and when both explicit named filters and a raw
filter mapping are supplied, the named parameters are applied first and the
raw mapping is overlaid: a key present in the raw mapping ends up with the
(last) value of the raw mapping, and a key absent from it keeps the value
of the named query.  The overlay is proven for each of the four tools that
accept a raw params mapping: get_devices, get_sites, get_ip_addresses and
get_prefixes. -/
theorem query_defaults_and_overlay :
    ((fun (c : Client) => get_sites c) = fun c => get_sites c 50 none) ∧
    ((fun (c : Client) => get_devices c) =
      fun c => get_devices c 50 none none) ∧
    ((fun (c : Client) => get_device_types c) =
      fun c => get_device_types c 50 none) ∧
    ((fun (c : Client) => get_ip_addresses c) =
      fun c => get_ip_addresses c 50 none none) ∧
    ((fun (c : Client) => get_prefixes c) =
      fun c => get_prefixes c 50 none none) ∧
    ((fun (c : Client) => get_vlans c) = fun c => get_vlans c 50 none) ∧
    ((fun (c : Client) => list_script_jobs c) =
      fun c => list_script_jobs c 50 none) ∧
    ((fun (c : Client) (endpoint q : String) => search_objects c endpoint q) =
      fun c endpoint q => search_objects c endpoint q 25) ∧
    (∀ (limit : Int) (site_id : Option Int) (p : Dict) (k : String),
      (memKey p k = true →
        pyGetKey (get_devices_query limit site_id (some p)) k =
          lastLookup p k) ∧
      (memKey p k = false →
        pyGetKey (get_devices_query limit site_id (some p)) k =
          pyGetKey (get_devices_named limit site_id) k)) ∧
    (∀ (limit : Int) (p : Dict) (k : String),
      (memKey p k = true →
        pyGetKey (get_sites_query limit (some p)) k = lastLookup p k) ∧
      (memKey p k = false →
        pyGetKey (get_sites_query limit (some p)) k =
          pyGetKey [("limit", JValue.num limit)] k)) ∧
    (∀ (limit : Int) (vrf_id : Option Int) (p : Dict) (k : String),
      (memKey p k = true →
        pyGetKey (get_ip_addresses_query limit vrf_id (some p)) k =
          lastLookup p k) ∧
      (memKey p k = false →
        pyGetKey (get_ip_addresses_query limit vrf_id (some p)) k =
          pyGetKey (get_ip_addresses_named limit vrf_id) k)) ∧
    (∀ (limit : Int) (vrf_id : Option Int) (p : Dict) (k : String),
      (memKey p k = true →
        pyGetKey (get_prefixes_query limit vrf_id (some p)) k =
          lastLookup p k) ∧
      (memKey p k = false →
        pyGetKey (get_prefixes_query limit vrf_id (some p)) k =
          pyGetKey (get_prefixes_named limit vrf_id) k)) := by
  refine ⟨rfl, rfl, rfl, rfl, rfl, rfl, rfl, rfl, ?_, ?_, ?_, ?_⟩
  · intro limit site_id p k
    constructor
    · intro hmem
      cases p with
      | nil => simp [memKey] at hmem
      | cons a as =>
        simp only [get_devices_query, List.isEmpty_cons, Bool.false_eq_true,
          if_false]
        exact pyGetKey_dictUpdate_mem _ hmem
    · intro hmem
      cases p with
      | nil => simp [get_devices_query]
      | cons a as =>
        simp only [get_devices_query, List.isEmpty_cons, Bool.false_eq_true,
          if_false]
        exact pyGetKey_dictUpdate_not_mem _ hmem
  · intro limit p k
    constructor
    · intro hmem
      cases p with
      | nil => simp [memKey] at hmem
      | cons a as =>
        simp only [get_sites_query, List.isEmpty_cons, Bool.false_eq_true,
          if_false]
        exact pyGetKey_dictUpdate_mem _ hmem
    · intro hmem
      cases p with
      | nil => simp [get_sites_query]
      | cons a as =>
        simp only [get_sites_query, List.isEmpty_cons, Bool.false_eq_true,
          if_false]
        exact pyGetKey_dictUpdate_not_mem _ hmem
  · intro limit vrf_id p k
    constructor
    · intro hmem
      cases p with
      | nil => simp [memKey] at hmem
      | cons a as =>
        simp only [get_ip_addresses_query, List.isEmpty_cons,
          Bool.false_eq_true, if_false]
        exact pyGetKey_dictUpdate_mem _ hmem
    · intro hmem
      cases p with
      | nil => simp [get_ip_addresses_query]
      | cons a as =>
        simp only [get_ip_addresses_query, List.isEmpty_cons,
          Bool.false_eq_true, if_false]
        exact pyGetKey_dictUpdate_not_mem _ hmem
  · intro limit vrf_id p k
    constructor
    · intro hmem
      cases p with
      | nil => simp [memKey] at hmem
      | cons a as =>
        simp only [get_prefixes_query, List.isEmpty_cons,
          Bool.false_eq_true, if_false]
        exact pyGetKey_dictUpdate_mem _ hmem
    · intro hmem
      cases p with
      | nil => simp [get_prefixes_query]
      | cons a as =>
        simp only [get_prefixes_query, List.isEmpty_cons,
          Bool.false_eq_true, if_false]
        exact pyGetKey_dictUpdate_not_mem _ hmem

/-- C9 witness: a raw mapping that collides on the `limit` key wins over
the named page size for get_devices and get_ip_addresses, and a fresh raw
key leaves the named `limit` intact for get_sites and get_prefixes. -/
theorem query_defaults_and_overlay_witness :
    pyGetKey (get_devices_query 5 (some 3) (some [("limit", JValue.num 99)]))
        "limit" = lastLookup [("limit", JValue.num 99)] "limit" ∧
    pyGetKey (get_sites_query 7 (some [("status", JValue.str "active")]))
        "limit" = pyGetKey [("limit", JValue.num 7)] "limit" ∧
    pyGetKey (get_ip_addresses_query 5 (some 2)
        (some [("vrf_id", JValue.num 8)])) "vrf_id" =
      lastLookup [("vrf_id", JValue.num 8)] "vrf_id" ∧
    pyGetKey (get_prefixes_query 5 (some 2)
        (some [("tenant", JValue.str "t")])) "limit" =
      pyGetKey (get_prefixes_named 5 (some 2)) "limit" := by
  obtain ⟨-, -, -, -, -, -, -, -, hdev, hsites, hip, hpre⟩ :=
    query_defaults_and_overlay
  exact ⟨(hdev 5 (some 3) [("limit", JValue.num 99)] "limit").1 rfl,
    (hsites 7 [("status", JValue.str "active")] "limit").2 rfl,
    (hip 5 (some 2) [("vrf_id", JValue.num 8)] "vrf_id").1 rfl,
    (hpre 5 (some 2) [("tenant", JValue.str "t")] "limit").2 rfl⟩

/-- C10: the optional numeric filters of `get_devices`, `get_ip_addresses`,
`get_prefixes` and `get_vlans` are added to the outbound query exactly when
truthy: passing 0 produces the same query as omitting the filter (the 0 is
silently dropped), while any non-zero id is added under its key. -/
theorem truthy_filter_dropping :
    ∀ (limit i : Int) (params : Option Dict),
    (get_devices_query limit (some 0) params =
      get_devices_query limit none params) ∧
    (get_ip_addresses_query limit (some 0) params =
      get_ip_addresses_query limit none params) ∧
    (get_prefixes_query limit (some 0) params =
      get_prefixes_query limit none params) ∧
    (get_vlans_query limit (some 0) = get_vlans_query limit none) ∧
    (i ≠ 0 → pyGetKey (get_devices_named limit (some i)) "site_id" =
      some (.num i)) ∧
    (pyGetKey (get_devices_named limit none) "site_id" = none) ∧
    (i ≠ 0 → pyGetKey (get_ip_addresses_named limit (some i)) "vrf_id" =
      some (.num i)) ∧
    (pyGetKey (get_ip_addresses_named limit none) "vrf_id" = none) ∧
    (i ≠ 0 → pyGetKey (get_prefixes_named limit (some i)) "vrf_id" =
      some (.num i)) ∧
    (pyGetKey (get_prefixes_named limit none) "vrf_id" = none) ∧
    (i ≠ 0 → pyGetKey (get_vlans_query limit (some i)) "site_id" =
      some (.num i)) ∧
    (pyGetKey (get_vlans_query limit none) "site_id" = none) := by
  intro limit i params
  refine ⟨rfl, rfl, rfl, rfl, ?_, rfl, ?_, rfl, ?_, rfl, ?_, rfl⟩
  · intro hi
    simp only [get_devices_named, bne_iff_ne.mpr hi, if_true]
    exact pyGetKey_dictSet_self _ _ _
  · intro hi
    simp only [get_ip_addresses_named, bne_iff_ne.mpr hi, if_true]
    exact pyGetKey_dictSet_self _ _ _
  · intro hi
    simp only [get_prefixes_named, bne_iff_ne.mpr hi, if_true]
    exact pyGetKey_dictSet_self _ _ _
  · intro hi
    simp only [get_vlans_query, bne_iff_ne.mpr hi, if_true]
    exact pyGetKey_dictSet_self _ _ _

/-- C10 witness: the dropping and adding behavior at the ids 0 and 3. -/
theorem truthy_filter_dropping_witness :
    get_devices_query 50 (some 0) none = get_devices_query 50 none none ∧
    pyGetKey (get_devices_named 50 (some 3)) "site_id" =
      some (JValue.num 3) :=
  ⟨(truthy_filter_dropping 50 3 none).1,
    (truthy_filter_dropping 50 3 none).2.2.2.2.1 (by decide)⟩
